import Mathlib

/-! Verification of `push_notifications/api/rest_framework.py`.

A shallow embedding of the device-registration REST API module of
django-push-notifications, together with theorems about its validators,
permissions and creation flow.

The module defines:
* `HexIntegerField` — an integer field whose wire format is a hex string,
  parsed with the Python builtin, base 16;
* `APNSDeviceSerializer.validate_registration_id` — 64-hex-char token check;
* `GCMDeviceSerializer.validate_device_id` — an upper range check against
  the maximum `BigIntegerField` value;
* `IsOwner` — an object-level permission;
* `DeviceViewSetMixin.perform_create` — owner assignment on create;
* `AuthorizedMixin.get_queryset` — owner-scoped queryset filtering;
* a `UniqueValidator` on the GCM `registration_id`.

Machine integers are modelled as `Int`/`Nat` (Python integers are unbounded,
so no wraparound is involved anywhere in this module).
-/

namespace PushNotifications

/-! Model of the Python builtin `int(data, 16)`.

`HexIntegerField.to_internal_value` calls the Python builtin `int(data, 16)`.
We embed its behaviour on strings: optional surrounding whitespace, an
optional sign, an optional `0x`/`0X` prefix, then one or more ASCII hex
digits with single underscores permitted between digits (and one directly
after the prefix). Any other string raises `ValueError` (modelled as `none`).
-/

/-- Whitespace characters stripped by the Python int builtin around a numeric
literal (ASCII whitespace). -/
def isPySpace (c : Char) : Bool :=
  c == ' ' || c == '\t' || c == '\n' || c == '\r' || c == '\x0b' || c == '\x0c'

/-- Value of an ASCII hexadecimal digit, `none` for any other character. -/
def hexDigitVal (c : Char) : Option Nat :=
  if '0' ≤ c ∧ c ≤ '9' then some (c.toNat - '0'.toNat)
  else if 'a' ≤ c ∧ c ≤ 'f' then some (c.toNat - 'a'.toNat + 10)
  else if 'A' ≤ c ∧ c ≤ 'F' then some (c.toNat - 'A'.toNat + 10)
  else none

/-- Digit tail of a hex literal: each further digit may be preceded by a
single underscore. `acc` is the value of the digits consumed so far. -/
def hexDigitsCore : List Char → Nat → Option Nat
  | [], acc => some acc
  | '_' :: c :: rest, acc =>
    match hexDigitVal c with
    | some d => hexDigitsCore rest (acc * 16 + d)
    | none => none
  | ['_'], _ => none
  | c :: rest, acc =>
    match hexDigitVal c with
    | some d => hexDigitsCore rest (acc * 16 + d)
    | none => none

/-- One or more hex digits with single underscores between them; the first
character must be a digit. -/
def parseHexDigits : List Char → Option Nat
  | [] => none
  | c :: rest =>
    match hexDigitVal c with
    | some d => hexDigitsCore rest d
    | none => none

/-- Python `int(s, 16)` on a string: `some n` on success, `none` when the
call raises `ValueError`. -/
def pyIntBase16 (s : String) : Option Int :=
  let cs := ((s.toList.dropWhile isPySpace).reverse.dropWhile isPySpace).reverse
  let signAndRest : Int × List Char :=
    match cs with
    | '+' :: rest => (1, rest)
    | '-' :: rest => (-1, rest)
    | _ => (1, cs)
  let body : List Char :=
    match signAndRest.2 with
    | '0' :: 'x' :: '_' :: rest => rest
    | '0' :: 'x' :: rest => rest
    | '0' :: 'X' :: '_' :: rest => rest
    | '0' :: 'X' :: rest => rest
    | rest => rest
  match parseHexDigits body with
  | some n => some (signAndRest.1 * (n : Int))
  | none => none

/-! Django and DRF framework constants and helpers (delegated code). -/

/-- Value of the Django constant
`BaseDatabaseOperations.integer_field_ranges["BigIntegerField"][1]`:
the maximum value of a 64-bit signed database integer. -/
def BIGINT_MAX_VALUE : Int := 9223372036854775807

/-- Behaviour of `rest_framework.fields.IntegerField.to_internal_value` on a
value that is already a Python int: it stringifies, strips a decimal point
suffix and re-parses, which is the identity on integers. -/
def IntegerField_to_internal_value (n : Int) : Int := n

/-! Python request values.

`to_internal_value(data)` receives arbitrary deserialized JSON values.
`int(data, 16)` with an explicit base raises `TypeError` unless `data` is a
string (it cannot convert a non-string with an explicit base); booleans and
integers are non-strings here. -/

/-- A deserialized wire value as handed to a DRF field. -/
inductive PyValue
  | pyStr (s : String)
  | pyInt (n : Int)
  | pyBool (b : Bool)
  | pyNone
deriving DecidableEq, Repr

/-- Outcome of a DRF field/validator run: a value, a `ValidationError`
carrying its message, or an exception that the code does not catch. -/
inductive FieldOutcome
  | ok (n : Int)
  | validationError (msg : String)
  | uncaughtTypeError
deriving DecidableEq, Repr

namespace HexIntegerField

/-- Embeds `HexIntegerField.to_internal_value`: `int(data, 16)` inside a
`try/except ValueError`; a parse failure (`ValueError`) becomes a
`ValidationError`, a `TypeError` from a non-string input is not caught,
and a parsed value is passed on to `IntegerField.to_internal_value`. -/
def to_internal_value : PyValue → FieldOutcome
  | .pyStr s =>
    match pyIntBase16 s with
    | some n => .ok (IntegerField_to_internal_value n)
    | none => .validationError "ValidationError Device ID is not a valid hex number"
  | _ => .uncaughtTypeError

/-- Embeds `HexIntegerField.to_representation`: returns the stored value
unchanged. -/
def to_representation (value : Int) : Int := value

end HexIntegerField

/-! Data model.

`APNSDevice` and `GCMDevice` share the shape used by the serializers and
viewsets: an owner (`user`, a nullable foreign key) plus the serialized
fields from `DeviceSerializerMixin.Meta.fields`
(`name`, `registration_id`, `device_id`, `active`, `date_created`;
`date_created` is read-only and server-set, so it takes no part in
deserialization). -/

/-- A user account, identified (as Django model equality is) by primary key. -/
structure User where
  id : Nat
deriving DecidableEq, Repr

/-- The requester of an HTTP call: `request.user` is either an
`AnonymousUser` (`is_authenticated()` false) or an actual user. -/
inductive Requester
  | anon
  | auth (u : User)
deriving DecidableEq, Repr

/-- A stored device record. `user` is the nullable owner foreign key. -/
structure DeviceRecord where
  user : Option User
  name : String
  registration_id : String
  device_id : Option Int
  active : Bool
deriving DecidableEq, Repr

/-- The writable serializer fields, i.e. the result of deserializing a
request body through `DeviceSerializerMixin.Meta.fields`. There is no
owner field here: `user` is not listed in `Meta.fields`. -/
structure DeviceFields where
  name : String
  registration_id : String
  device_id : Option Int
  active : Bool
deriving DecidableEq, Repr

/-- A request body as sent by a client. `owner` models a client-supplied
owner value; `active` is optional and defaults to `True`
(`extra_kwargs = {"active": {"default": True}}`). -/
structure RequestBody where
  name : String
  registration_id : String
  device_id : Option Int
  active : Option Bool
  owner : Option User
deriving DecidableEq, Repr

/-- Deserialization through the serializer: only the fields declared in
`Meta.fields` are read; a client-supplied owner is dropped, and a missing
`active` defaults to `True`. -/
def deserialize (b : RequestBody) : DeviceFields :=
  { name := b.name
    registration_id := b.registration_id
    device_id := b.device_id
    active := b.active.getD true }

/-! Serializer save, DRF `BaseSerializer.save`.

`serializer.save(**kwargs)` merges `kwargs` into `validated_data`; with no
instance it creates a record, with an instance it updates it in place and
keeps any attribute not present in the merged data. The only keyword
argument this module ever passes is `user=...`. -/

/-- The state a serializer carries between validation and saving. -/
structure SerializerState where
  validated_data : DeviceFields
  /-- models `self.instance` (Lean reserves the word itself) -/
  inst : Option DeviceRecord
deriving DecidableEq, Repr

/-- Embeds `serializer.save(**kwargs)` where `kwargs` is either `{user: u}` or
empty. Returns the updated serializer state together with the saved
record (`save` returns `self.instance`). -/
def serializer_save (st : SerializerState) (userKwarg : Option User) :
    SerializerState × DeviceRecord :=
  match st.inst with
  | none =>
    let r : DeviceRecord :=
      { user := userKwarg
        name := st.validated_data.name
        registration_id := st.validated_data.registration_id
        device_id := st.validated_data.device_id
        active := st.validated_data.active }
    ({ st with inst := some r }, r)
  | some r =>
    let r' : DeviceRecord :=
      { user := match userKwarg with
                | some u => some u
                | none => r.user
        name := st.validated_data.name
        registration_id := st.validated_data.registration_id
        device_id := st.validated_data.device_id
        active := st.validated_data.active }
    ({ st with inst := some r' }, r')

namespace DeviceViewSetMixin

/-- Embeds `DeviceViewSetMixin.perform_create`: if
`request.user.is_authenticated()` holds then
`serializer.save(user=request.user)` runs, and in every case
`super().perform_create(serializer)` runs afterwards, which is the DRF
`CreateModelMixin.perform_create`, i.e. `serializer.save()`. The second
component records, in order, the `user` keyword argument of each
`serializer.save` invocation. -/
def perform_create (req : Requester) (st : SerializerState) :
    SerializerState × List (Option User) :=
  match req with
  | .auth u =>
    let st1 := (serializer_save st (some u)).1
    let st2 := (serializer_save st1 none).1
    (st2, [some u, none])
  | .anon =>
    let st2 := (serializer_save st none).1
    (st2, [none])

end DeviceViewSetMixin

/-- The whole create flow of a device viewset on a request body: validate-
and-deserialize produces `validated_data` with no instance, then
`perform_create` runs; the result is the final saved record held by the
serializer. -/
def device_create (req : Requester) (b : RequestBody) : Option DeviceRecord :=
  (DeviceViewSetMixin.perform_create req
    { validated_data := deserialize b, inst := none }).1.inst

/-! Permissions. -/

/-- Value of `request.user` as Python sees it: the Django `AnonymousUser` or
a `User` model instance. -/
inductive RequestUser
  | anonymousUser
  | authUser (u : User)
deriving DecidableEq, Repr

/-- The `request.user` attribute of a request by the given requester. -/
def Requester.request_user : Requester → RequestUser
  | .anon => .anonymousUser
  | .auth u => .authUser u

/-- Python equality between the device `user` attribute (a `User` instance or
`None`) and `request.user` (a `User` or `AnonymousUser`): two `User`
instances compare by primary key; `None == AnonymousUser` is false, as is
any comparison mixing the kinds. -/
def py_user_eq : Option User → RequestUser → Bool
  | some u, .authUser v => u == v
  | _, _ => false

namespace IsOwner

/-- Embeds `IsOwner.has_object_permission`: `obj.user == request.user`. -/
def has_object_permission (req : Requester) (obj : DeviceRecord) : Bool :=
  py_user_eq obj.user req.request_user

/-- Class `IsOwner` does not override `has_permission`, so it inherits
`BasePermission.has_permission`, which returns `True`: view-level checks
(list, create) are always granted by this class. -/
def has_permission (_req : Requester) : Bool := true

end IsOwner

/-! Serializer validators. -/

/-- An ASCII hexadecimal digit, the character class `[0-9a-fA-F]`. -/
def isHexChar (c : Char) : Bool :=
  ('0' ≤ c && c ≤ '9') || ('a' ≤ c && c ≤ 'f') || ('A' ≤ c && c ≤ 'F')

/-- Modelled from the spec: `hex_re` is imported from
`push_notifications.fields`, a module not present in the source excerpt.
Per the spec, an APNS registration id "must match the pattern of
hexadecimal characters only" (the data-model section gives the pattern
`[0-9a-fA-F]` repeated): `hex_re.match(value)` succeeds exactly on
non-empty strings of hexadecimal characters. -/
def hex_re_match (s : String) : Bool :=
  !s.toList.isEmpty && s.toList.all isHexChar

namespace APNSDeviceSerializer

/-- Embeds `APNSDeviceSerializer.validate_registration_id`: the value must match
`hex_re` and have exactly 64 characters, otherwise a `ValidationError`;
on success it is returned unchanged. -/
def validate_registration_id (value : String) : Except String String :=
  if !hex_re_match value || value.length ≠ 64 then
    .error "Registration ID (device token) is invalid"
  else
    .ok value

end APNSDeviceSerializer

namespace GCMDeviceSerializer

/-- Embeds `GCMDeviceSerializer.validate_device_id`: reject any value above
`BIGINT_MAX_VALUE` with a range `ValidationError`; anything else (any
lower value, negatives included) is returned unchanged. -/
def validate_device_id (value : Int) : Except String Int :=
  if value > BIGINT_MAX_VALUE then
    .error "ValidationError Device ID is out of range"
  else
    .ok value

/-- The full wire-to-value path of the GCM `device_id` field on a string
input: `HexIntegerField.to_internal_value` followed by
`validate_device_id` (DRF runs field `to_internal_value` and then the
serializer hook `validate_<field>`). -/
def device_id_pipeline (s : String) : FieldOutcome :=
  match HexIntegerField.to_internal_value (.pyStr s) with
  | .ok v =>
    match validate_device_id v with
    | .ok w => .ok w
    | .error m => .validationError m
  | e => e

/-- The `UniqueValidator(queryset=GCMDevice.objects.all())` attached to the
GCM `registration_id`: on create it fails exactly when some stored GCM
record already carries the value. -/
def registration_id_unique_conflict (store : List DeviceRecord)
    (regId : String) : Bool :=
  store.any (fun r => r.registration_id == regId)

end GCMDeviceSerializer

/-! Authorized mixin. -/

/-- An error response produced before or instead of a success payload. -/
inductive ApiError
  | forbidden
  | notFound
  | uniqueRegistrationId
deriving DecidableEq, Repr

namespace AuthorizedMixin

/-- Embeds `AuthorizedMixin.get_queryset`:
`self.queryset.filter(user=self.request.user)` for an authenticated user. -/
def get_queryset (qs : List DeviceRecord) (u : User) : List DeviceRecord :=
  qs.filter (fun r => r.user == some u)

/-- A list request through an authorized viewset:
`permission_classes = (IsAuthenticated, IsOwner)`, so an unauthenticated
request is rejected by `IsAuthenticated` before any queryset is evaluated;
an authenticated one receives `get_queryset`. -/
def authorized_list (req : Requester) (qs : List DeviceRecord) :
    Except ApiError (List DeviceRecord) :=
  match req with
  | .anon => .error .forbidden
  | .auth u => .ok (get_queryset qs u)

/-- An object request (`lookup_field = "registration_id"`) through an
authorized viewset: `IsAuthenticated` first, then the object is looked up
inside `get_queryset` (a miss is a 404), then `IsOwner` runs on the found
object. -/
def authorized_retrieve (req : Requester) (qs : List DeviceRecord)
    (regId : String) : Except ApiError DeviceRecord :=
  match req with
  | .anon => .error .forbidden
  | .auth u =>
    match (get_queryset qs u).find? (fun r => r.registration_id == regId) with
    | none => .error .notFound
    | some r =>
      if IsOwner.has_object_permission req r then .ok r
      else .error .forbidden

end AuthorizedMixin

/-- Creation of a GCM device against a store of existing GCM records: the
`UniqueValidator` on `registration_id` runs during validation, then
`perform_create` saves the new record (the follow-up save in
`perform_create` updates the same row, leaving a single inserted record). -/
def gcm_create (req : Requester) (store : List DeviceRecord)
    (b : RequestBody) : Except ApiError (List DeviceRecord) :=
  if GCMDeviceSerializer.registration_id_unique_conflict store b.registration_id then
    .error .uniqueRegistrationId
  else
    .ok (store ++ (device_create req b).toList)

/-! Theorems. -/

/-- Python equality against `AnonymousUser` is false for every stored
owner value. -/
lemma py_user_eq_anonymous (x : Option User) :
    py_user_eq x RequestUser.anonymousUser = false := by
  cases x <;> rfl

/-- Python equality of an unset owner against any request user is false. -/
lemma py_user_eq_unset (ru : RequestUser) :
    py_user_eq none ru = false := by
  cases ru <;> rfl

/-- Python equality of a set owner against an authenticated request user
is primary-key equality. -/
lemma py_user_eq_set_auth (u v : User) :
    py_user_eq (some u) (RequestUser.authUser v) = (u == v) := rfl

/-- C4: the object-level ownership check `IsOwner.has_object_permission`
grants permission exactly when the record owner is set and equals the
requesting user; and `IsOwner` grants every view-level (list/create)
check unconditionally, so the ownership test applies only to object-level
operations. -/
theorem is_owner_object_permission (req : Requester) (obj : DeviceRecord) :
    (IsOwner.has_object_permission req obj = true ↔
      ∃ u : User, req = Requester.auth u ∧ obj.user = some u) ∧
    IsOwner.has_permission req = true := by
  refine ⟨?_, rfl⟩
  cases req with
  | anon =>
    simp only [IsOwner.has_object_permission, Requester.request_user,
      py_user_eq_anonymous]
    constructor
    · intro hfalse
      exact absurd hfalse (by simp)
    · rintro ⟨u, hu, -⟩
      cases hu
  | auth v =>
    cases hu : obj.user with
    | none =>
      simp only [IsOwner.has_object_permission, Requester.request_user, hu,
        py_user_eq_unset]
      constructor
      · intro hfalse
        exact absurd hfalse (by simp)
      · rintro ⟨u, -, hw⟩
        cases hw
    | some w =>
      simp only [IsOwner.has_object_permission, Requester.request_user, hu,
        py_user_eq_set_auth]
      constructor
      · intro hw
        exact ⟨v, rfl, by rw [eq_of_beq hw]⟩
      · rintro ⟨u, hvu, hwu⟩
        injection hvu with h1
        injection hwu with h2
        rw [h1, h2]
        simp

/-- C9: on an authenticated create, `DeviceViewSetMixin.perform_create`
invokes `serializer.save` twice — first with `user=request.user`, then once
more with no user argument through the inherited implementation — so an
authenticated creation is not a single save; on an unauthenticated create,
save runs exactly once. -/
theorem perform_create_double_save (u : User) (st : SerializerState) :
    (DeviceViewSetMixin.perform_create (Requester.auth u) st).2 =
      [some u, none] ∧
    (DeviceViewSetMixin.perform_create (Requester.auth u) st).2.length = 2 ∧
    (DeviceViewSetMixin.perform_create Requester.anon st).2 = [none] ∧
    (DeviceViewSetMixin.perform_create Requester.anon st).2.length = 1 := by
  exact ⟨rfl, rfl, rfl, rfl⟩

/-- C8: `GCMDeviceSerializer.validate_device_id` checks only the upper
bound: every integer at most `BIGINT_MAX_VALUE` — negative values
included, even below the 64-bit signed minimum — passes validation and is
returned unchanged. -/
theorem device_id_upper_bound_only (v : Int) (h : v ≤ BIGINT_MAX_VALUE) :
    GCMDeviceSerializer.validate_device_id v = Except.ok v := by
  unfold GCMDeviceSerializer.validate_device_id
  rw [if_neg (not_lt.mpr h)]

/-- Witness for C8 at the value parsed from `"-0x10000000000000000"`,
which lies below the 64-bit signed minimum yet validates successfully. -/
theorem device_id_upper_bound_only_witness :
    pyIntBase16 "-0x10000000000000000" = some (-18446744073709551616) ∧
    (-18446744073709551616 : Int) < -9223372036854775808 ∧
    GCMDeviceSerializer.validate_device_id (-18446744073709551616) =
      Except.ok (-18446744073709551616) := by
  refine ⟨by decide, by decide, ?_⟩
  exact device_id_upper_bound_only (-18446744073709551616) (by decide)

/-- C10: `HexIntegerField.to_internal_value` catches only `ValueError`;
on every non-string input the `TypeError` raised by `int(data, 16)`
propagates uncaught instead of becoming a field validation error. -/
theorem to_internal_value_typeerror_uncaught (pv : PyValue)
    (h : ∀ s : String, pv ≠ PyValue.pyStr s) :
    HexIntegerField.to_internal_value pv = FieldOutcome.uncaughtTypeError := by
  cases pv with
  | pyStr s => exact absurd rfl (h s)
  | pyInt n => rfl
  | pyBool b => rfl
  | pyNone => rfl

/-- Witness for C10 at the concrete non-string inputs `None` and `3`. -/
theorem to_internal_value_typeerror_uncaught_witness :
    HexIntegerField.to_internal_value PyValue.pyNone =
      FieldOutcome.uncaughtTypeError ∧
    HexIntegerField.to_internal_value (PyValue.pyInt 3) =
      FieldOutcome.uncaughtTypeError := by
  constructor
  · exact to_internal_value_typeerror_uncaught PyValue.pyNone
      (fun s hs => PyValue.noConfusion hs)
  · exact to_internal_value_typeerror_uncaught (PyValue.pyInt 3)
      (fun s hs => PyValue.noConfusion hs)

/-- C7: `HexIntegerField.to_representation` is the identity, and composing
it with `to_internal_value` on any string accepted by the base-16 parse
yields exactly the parsed integer. -/
theorem hex_to_representation_identity :
    (∀ v : Int, HexIntegerField.to_representation v = v) ∧
    (∀ (s : String) (n : Int), pyIntBase16 s = some n →
      HexIntegerField.to_internal_value (PyValue.pyStr s) =
        FieldOutcome.ok n ∧
      HexIntegerField.to_representation n = n) := by
  refine ⟨fun v => rfl, fun s n h => ⟨?_, rfl⟩⟩
  simp only [HexIntegerField.to_internal_value, h, IntegerField_to_internal_value]

/-- C2: `APNSDeviceSerializer.validate_registration_id` accepts a string
and returns it unchanged exactly when it consists of 64 hexadecimal
characters; every other string is rejected with the invalid-token
validation error. -/
theorem apns_registration_id_validation (s : String) :
    (APNSDeviceSerializer.validate_registration_id s = Except.ok s ↔
      s.length = 64 ∧ ∀ c ∈ s.toList, isHexChar c = true) ∧
    (¬(s.length = 64 ∧ ∀ c ∈ s.toList, isHexChar c = true) →
      APNSDeviceSerializer.validate_registration_id s =
        Except.error "Registration ID (device token) is invalid") := by
  have hlen : s.length = s.toList.length := rfl
  rcases Bool.eq_false_or_eq_true
      (!hex_re_match s || decide (s.length ≠ 64)) with hc | hc
  swap
  · have hok : APNSDeviceSerializer.validate_registration_id s =
        Except.ok s := by
      unfold APNSDeviceSerializer.validate_registration_id
      rw [hc]
      rfl
    rw [Bool.or_eq_false_iff] at hc
    obtain ⟨hre, h64⟩ := hc
    rw [Bool.not_eq_false'] at hre
    have h64' : s.length = 64 := by
      have := of_decide_eq_false h64
      omega
    unfold hex_re_match at hre
    rw [Bool.and_eq_true] at hre
    have hall := List.all_eq_true.mp hre.2
    exact ⟨⟨fun _ => ⟨h64', hall⟩, fun _ => hok⟩,
      fun hbad => absurd ⟨h64', hall⟩ hbad⟩
  · have herr : APNSDeviceSerializer.validate_registration_id s =
        Except.error "Registration ID (device token) is invalid" := by
      unfold APNSDeviceSerializer.validate_registration_id
      rw [hc]
      rfl
    have hbad : ¬(s.length = 64 ∧ ∀ c ∈ s.toList, isHexChar c = true) := by
      rintro ⟨h64, hall⟩
      have hre : hex_re_match s = true := by
        unfold hex_re_match
        rw [Bool.and_eq_true]
        refine ⟨?_, List.all_eq_true.mpr hall⟩
        cases hl : s.toList with
        | nil =>
          rw [hlen, hl] at h64
          simp at h64
        | cons a l => rfl
      rw [Bool.or_eq_true] at hc
      rcases hc with h1 | h2
      · rw [hre] at h1
        simp at h1
      · exact absurd h64 (of_decide_eq_true h2)
    constructor
    · constructor
      · intro hok
        rw [herr] at hok
        cases hok
      · intro hgood
        exact absurd hgood hbad
    · intro _
      exact herr

/-- Witness for C2 at a 64-character hexadecimal token and at the
two-character non-hex string `"zz"`. -/
theorem apns_registration_id_validation_witness :
    APNSDeviceSerializer.validate_registration_id
        "0123456789abcdef0123456789abcdef0123456789abcdef0123456789abcdef" =
      Except.ok
        "0123456789abcdef0123456789abcdef0123456789abcdef0123456789abcdef" ∧
    APNSDeviceSerializer.validate_registration_id "zz" =
      Except.error "Registration ID (device token) is invalid" := by
  constructor
  · exact (apns_registration_id_validation
      "0123456789abcdef0123456789abcdef0123456789abcdef0123456789abcdef").1.mpr
      ⟨by decide, by decide⟩
  · exact (apns_registration_id_validation "zz").2 (by decide)

/-- C3: on a string input, the GCM `device_id` path
(`HexIntegerField.to_internal_value` then
`GCMDeviceSerializer.validate_device_id`) yields the parsed base-16
integer exactly when the string parses and the value is at most
`BIGINT_MAX_VALUE`; a non-parsing string yields the hex validation error,
whose message contains the phrase of the spec, and a parsed value above
the bound yields the range validation error. -/
theorem gcm_device_id_validation (s : String) :
    (∀ v : Int,
      GCMDeviceSerializer.device_id_pipeline s = FieldOutcome.ok v ↔
        pyIntBase16 s = some v ∧ v ≤ BIGINT_MAX_VALUE) ∧
    (pyIntBase16 s = none →
      GCMDeviceSerializer.device_id_pipeline s =
        FieldOutcome.validationError
          "ValidationError Device ID is not a valid hex number" ∧
      ∃ pre post : String,
        "ValidationError Device ID is not a valid hex number" =
          pre ++ "not a valid hex number" ++ post) ∧
    (∀ v : Int, pyIntBase16 s = some v → BIGINT_MAX_VALUE < v →
      GCMDeviceSerializer.device_id_pipeline s =
        FieldOutcome.validationError
          "ValidationError Device ID is out of range") := by
  have hmsg : ∃ pre post : String,
      "ValidationError Device ID is not a valid hex number" =
        pre ++ "not a valid hex number" ++ post :=
    ⟨"ValidationError Device ID is ", "", by decide⟩
  cases hp : pyIntBase16 s with
  | none =>
    have hpipe : GCMDeviceSerializer.device_id_pipeline s =
        FieldOutcome.validationError
          "ValidationError Device ID is not a valid hex number" := by
      simp [GCMDeviceSerializer.device_id_pipeline,
        HexIntegerField.to_internal_value, hp]
    refine ⟨?_, fun _ => ⟨hpipe, hmsg⟩, ?_⟩
    · intro v
      rw [hpipe]
      constructor
      · intro h
        cases h
      · rintro ⟨hv, -⟩
        cases hv
    · intro v hv _
      cases hv
  | some n =>
    have hti : HexIntegerField.to_internal_value (PyValue.pyStr s) =
        FieldOutcome.ok n := by
      simp [HexIntegerField.to_internal_value, hp,
        IntegerField_to_internal_value]
    by_cases hn : BIGINT_MAX_VALUE < n
    · have hpipe : GCMDeviceSerializer.device_id_pipeline s =
          FieldOutcome.validationError
            "ValidationError Device ID is out of range" := by
        simp [GCMDeviceSerializer.device_id_pipeline, hti,
          GCMDeviceSerializer.validate_device_id, hn]
      refine ⟨?_, ?_, ?_⟩
      · intro v
        rw [hpipe]
        constructor
        · intro h
          cases h
        · rintro ⟨hv, hle⟩
          injection hv with hv
          omega
      · intro h0
        cases h0
      · intro v _ _
        exact hpipe
    · have hle : n ≤ BIGINT_MAX_VALUE := not_lt.mp hn
      have hpipe : GCMDeviceSerializer.device_id_pipeline s =
          FieldOutcome.ok n := by
        simp [GCMDeviceSerializer.device_id_pipeline, hti,
          GCMDeviceSerializer.validate_device_id, hn]
      refine ⟨?_, ?_, ?_⟩
      · intro v
        rw [hpipe]
        constructor
        · intro h
          injection h with h
          exact ⟨by rw [h], h ▸ hle⟩
        · rintro ⟨hv, -⟩
          injection hv with hv
          rw [hv]
      · intro h0
        cases h0
      · intro v hv hgt
        injection hv with hv
        omega

/-- Witness for C3 at `"0x1A"` (parses to 26 and validates), `"zz"` (hex
validation error) and `"0x8000000000000000"` (parses above the 64-bit
signed bound, range error). -/
theorem gcm_device_id_validation_witness :
    GCMDeviceSerializer.device_id_pipeline "0x1A" = FieldOutcome.ok 26 ∧
    GCMDeviceSerializer.device_id_pipeline "zz" =
      FieldOutcome.validationError
        "ValidationError Device ID is not a valid hex number" ∧
    GCMDeviceSerializer.device_id_pipeline "0x8000000000000000" =
      FieldOutcome.validationError
        "ValidationError Device ID is out of range" := by
  refine ⟨?_, ?_, ?_⟩
  · exact ((gcm_device_id_validation "0x1A").1 26).mpr ⟨by decide, by decide⟩
  · exact ((gcm_device_id_validation "zz").2.1 (by decide)).1
  · exact (gcm_device_id_validation "0x8000000000000000").2.2
      9223372036854775808 (by decide) (by decide)

/-- Witness for C7 at the string `"0x1A"`, which parses to 26. -/
theorem hex_to_representation_identity_witness :
    HexIntegerField.to_internal_value (PyValue.pyStr "0x1A") =
      FieldOutcome.ok 26 ∧
    HexIntegerField.to_representation 26 = 26 := by
  exact hex_to_representation_identity.2 "0x1A" 26 (by decide)

/-- C1: the saved owner on create is assigned server-side. An
authenticated requester always becomes the stored owner — two request
bodies differing only in a client-supplied owner field produce the same
saved record — and an unauthenticated create leaves the owner unset. -/
theorem owner_assigned_server_side (u : User) (b1 b2 : RequestBody)
    (h : b1.name = b2.name ∧ b1.registration_id = b2.registration_id ∧
      b1.device_id = b2.device_id ∧ b1.active = b2.active) :
    (device_create (Requester.auth u) b1).map DeviceRecord.user =
      some (some u) ∧
    device_create (Requester.auth u) b1 =
      device_create (Requester.auth u) b2 ∧
    (device_create Requester.anon b1).map DeviceRecord.user = some none := by
  obtain ⟨h1, h2, h3, h4⟩ := h
  refine ⟨rfl, ?_, rfl⟩
  simp only [device_create, DeviceViewSetMixin.perform_create,
    serializer_save, deserialize, h1, h2, h3, h4]

/-- Witness for C1: two concrete bodies identical except for the
client-supplied owner field, created by user 3 and anonymously. -/
theorem owner_assigned_server_side_witness :
    (device_create (Requester.auth ⟨3⟩)
        { name := "phone", registration_id := "tok1", device_id := none,
          active := none, owner := none }).map DeviceRecord.user =
      some (some ⟨3⟩) ∧
    device_create (Requester.auth ⟨3⟩)
        { name := "phone", registration_id := "tok1", device_id := none,
          active := none, owner := none } =
      device_create (Requester.auth ⟨3⟩)
        { name := "phone", registration_id := "tok1", device_id := none,
          active := none, owner := some ⟨9⟩ } ∧
    (device_create Requester.anon
        { name := "phone", registration_id := "tok1", device_id := none,
          active := none, owner := none }).map DeviceRecord.user =
      some none := by
  exact owner_assigned_server_side ⟨3⟩
    { name := "phone", registration_id := "tok1", device_id := none,
      active := none, owner := none }
    { name := "phone", registration_id := "tok1", device_id := none,
      active := none, owner := some ⟨9⟩ }
    ⟨rfl, rfl, rfl, rfl⟩

/-- C5 counterexample: an unauthenticated request to an
ownership-authorized list endpoint is rejected with a forbidden result
by the `IsAuthenticated` permission; it does not obtain an empty record
set, contrary to the claim. -/
theorem anon_list_not_empty_set :
    AuthorizedMixin.authorized_list Requester.anon
        [{ user := some ⟨1⟩, name := "d", registration_id := "tok",
           device_id := none, active := true }] =
      Except.error ApiError.forbidden ∧
    AuthorizedMixin.authorized_list Requester.anon
        [{ user := some ⟨1⟩, name := "d", registration_id := "tok",
           device_id := none, active := true }] ≠
      Except.ok [] := by
  exact ⟨rfl, fun hcontra => Except.noConfusion hcontra⟩

/-- C5 as amended: for an authenticated user the effective queryset of an
authorized viewset contains exactly the records whose owner is that user;
an authenticated requester owning none of the records obtains an empty
set on list and not-found on object access; an unauthenticated requester
is rejected with a forbidden result on both list and object access. -/
theorem authorized_queryset_scoping (u : User) (qs : List DeviceRecord)
    (r : DeviceRecord) (regId : String) :
    (r ∈ AuthorizedMixin.get_queryset qs u ↔ r ∈ qs ∧ r.user = some u) ∧
    AuthorizedMixin.authorized_list (Requester.auth u) qs =
      Except.ok (AuthorizedMixin.get_queryset qs u) ∧
    ((∀ x ∈ qs, x.user ≠ some u) →
      AuthorizedMixin.get_queryset qs u = [] ∧
      AuthorizedMixin.authorized_retrieve (Requester.auth u) qs regId =
        Except.error ApiError.notFound) ∧
    AuthorizedMixin.authorized_list Requester.anon qs =
      Except.error ApiError.forbidden ∧
    AuthorizedMixin.authorized_retrieve Requester.anon qs regId =
      Except.error ApiError.forbidden := by
  refine ⟨?_, rfl, ?_, rfl, rfl⟩
  · rw [AuthorizedMixin.get_queryset, List.mem_filter]
    constructor
    · rintro ⟨hm, hb⟩
      exact ⟨hm, eq_of_beq hb⟩
    · rintro ⟨hm, hb⟩
      exact ⟨hm, by rw [hb]; simp⟩
  · intro hnone
    have hempty : AuthorizedMixin.get_queryset qs u = [] := by
      rw [AuthorizedMixin.get_queryset, List.filter_eq_nil_iff]
      intro a ha hb
      exact hnone a ha (eq_of_beq hb)
    refine ⟨hempty, ?_⟩
    simp [AuthorizedMixin.authorized_retrieve, hempty]

/-- Witness for C5 as amended: user 1 against a store holding a single
record owned by user 2. -/
theorem authorized_queryset_scoping_witness :
    ({ user := some ⟨2⟩, name := "d", registration_id := "tok",
       device_id := none, active := true : DeviceRecord } ∈
      AuthorizedMixin.get_queryset
        [{ user := some ⟨2⟩, name := "d", registration_id := "tok",
           device_id := none, active := true }] ⟨1⟩ ↔
      ({ user := some ⟨2⟩, name := "d", registration_id := "tok",
         device_id := none, active := true : DeviceRecord } ∈
        [{ user := some ⟨2⟩, name := "d", registration_id := "tok",
           device_id := none, active := true : DeviceRecord }] ∧
      (some ⟨2⟩ : Option User) = some ⟨1⟩)) ∧
    AuthorizedMixin.get_queryset
        [{ user := some ⟨2⟩, name := "d", registration_id := "tok",
           device_id := none, active := true }] ⟨1⟩ = [] ∧
    AuthorizedMixin.authorized_retrieve (Requester.auth ⟨1⟩)
        [{ user := some ⟨2⟩, name := "d", registration_id := "tok",
           device_id := none, active := true }] "tok" =
      Except.error ApiError.notFound := by
  have h := authorized_queryset_scoping ⟨1⟩
    [{ user := some ⟨2⟩, name := "d", registration_id := "tok",
       device_id := none, active := true }]
    { user := some ⟨2⟩, name := "d", registration_id := "tok",
      device_id := none, active := true } "tok"
  exact ⟨h.1, (h.2.2.1 (by decide)).1, (h.2.2.1 (by decide)).2⟩

/-- Every run of `device_create` saves a record whose `registration_id`
is the one deserialized from the request body. -/
lemma device_create_registration_id (req : Requester) (b : RequestBody) :
    ∃ r : DeviceRecord, device_create req b = some r ∧
      r.registration_id = b.registration_id := by
  cases req with
  | anon => exact ⟨_, rfl, rfl⟩
  | auth u => exact ⟨_, rfl, rfl⟩

/-- C6: GCM `registration_id` uniqueness. After a successful create, a
second create carrying the same `registration_id` fails with the
uniqueness validation error, and pairwise distinctness of stored
registration ids is an invariant preserved by every successful create. -/
theorem gcm_registration_id_uniqueness
    (req1 req2 : Requester) (store store1 : List DeviceRecord)
    (b b2 : RequestBody)
    (hok : gcm_create req1 store b = Except.ok store1)
    (hsame : b2.registration_id = b.registration_id) :
    gcm_create req2 store1 b2 = Except.error ApiError.uniqueRegistrationId ∧
    (store.Pairwise (fun x y => x.registration_id ≠ y.registration_id) →
      store1.Pairwise (fun x y => x.registration_id ≠ y.registration_id)) := by
  unfold gcm_create at hok
  rcases Bool.eq_false_or_eq_true
      (GCMDeviceSerializer.registration_id_unique_conflict store
        b.registration_id) with hc | hc
  case inl =>
    rw [if_pos hc] at hok
    cases hok
  case inr =>
    rw [if_neg (by rw [hc]; exact Bool.false_ne_true)] at hok
    injection hok with hok
    obtain ⟨r, hr, hrid⟩ := device_create_registration_id req1 b
    subst hok
    have hnc : ∀ a ∈ store, a.registration_id ≠ b.registration_id := by
      intro a ha heq
      have : GCMDeviceSerializer.registration_id_unique_conflict store
          b.registration_id = true := by
        unfold GCMDeviceSerializer.registration_id_unique_conflict
        rw [List.any_eq_true]
        exact ⟨a, ha, by rw [heq]; simp⟩
      rw [this] at hc
      cases hc
    constructor
    · unfold gcm_create
      rw [if_pos ?hconf]
      case hconf =>
        unfold GCMDeviceSerializer.registration_id_unique_conflict
        rw [hr, List.any_append, Bool.or_eq_true]
        right
        simp [hrid, hsame]
    · intro hpw
      rw [hr]
      rw [List.pairwise_append]
      refine ⟨hpw, ?_, ?_⟩
      · simp
      · intro a ha c hcmem
        rw [Option.toList_some, List.mem_singleton] at hcmem
        subst hcmem
        rw [hrid]
        exact hnc a ha

/-- Witness for C6: user 1 registers token `"abc"` into an empty store;
user 2 then attempts the same token and is rejected, and the one-record
store is pairwise distinct. -/
theorem gcm_registration_id_uniqueness_witness :
    gcm_create (Requester.auth ⟨2⟩)
        [{ user := some ⟨1⟩, name := "n", registration_id := "abc",
           device_id := none, active := true }]
        { name := "n", registration_id := "abc", device_id := none,
          active := none, owner := none } =
      Except.error ApiError.uniqueRegistrationId ∧
    ([{ user := some ⟨1⟩, name := "n", registration_id := "abc",
        device_id := none, active := true : DeviceRecord }].Pairwise
      (fun x y => x.registration_id ≠ y.registration_id)) := by
  have h := gcm_registration_id_uniqueness (Requester.auth ⟨1⟩)
    (Requester.auth ⟨2⟩) []
    [{ user := some ⟨1⟩, name := "n", registration_id := "abc",
       device_id := none, active := true }]
    { name := "n", registration_id := "abc", device_id := none,
      active := none, owner := none }
    { name := "n", registration_id := "abc", device_id := none,
      active := none, owner := none }
    rfl rfl
  exact ⟨h.1, h.2 List.Pairwise.nil⟩

end PushNotifications
